import Mathlib

/-!
Shallow embedding of the COVID-19 dashboard pipeline (src/app.py) and proofs
about its filter stage, KPI row, trend classifier, top-N breakdown, peak
finder, dispersion statistics and top-10 ranking insight.

Conventions of the embedding:
  * a dataframe is a `List Record` in row order; column names keep the
    source names (negara, tanggal, kasus_harian, kasus_kumulatif);
  * dates are modelled as integers (day numbers), case counts as rationals;
  * pandas `tail(n)` is `drop (length - n)`, `head(n)` is `take n`,
    `sort_values` is a stable `insertionSort`, `groupby("negara")`
    enumerates the distinct countries in ascending order;
  * a pandas reduction that yields NaN on empty input is an `Option`, and
    a Python expression that raises (int(NaN), .iloc out of range) is the
    `raised` outcome of `PanelOut`; an `st.info` placeholder branch is the
    `placeholder` outcome.
-/

/-- One row of the cleaned dataset: one (country, date) observation. -/
structure Record where
  negara : String
  tanggal : Int
  kasus_harian : Rat
  kasus_kumulatif : Rat
deriving DecidableEq, Repr

/-- Outcome of rendering one dashboard panel: the guarded `st.info`
placeholder branch, an uncaught exception, or a computed value. -/
inductive PanelOut (α : Type) where
  | placeholder : PanelOut α
  | raised : PanelOut α
  | ok : α → PanelOut α
deriving DecidableEq

/-- Filter stage (app.py lines 63-67): rows whose country is in the
selection and whose date lies in the inclusive interval. -/
def dfFiltered (df : List Record) (negara_selected : List String)
    (start_date end_date : Int) : List Record :=
  df.filter fun r =>
    decide (r.negara ∈ negara_selected)
      && decide (start_date ≤ r.tanggal) && decide (r.tanggal ≤ end_date)

/-- Arithmetic mean of a column, pandas `.mean()` on nonempty input. -/
def mean (xs : List Rat) : Rat := xs.sum / (xs.length : Rat)

/-- pandas `.tail(n)`: the last `n` rows (all rows when fewer). -/
def tailN (n : Nat) (xs : List Rat) : List Rat := xs.drop (xs.length - n)

/-- Trend label produced by the trend-analysis loop (app.py lines 179-184). -/
inductive Trend where
  | meningkat : Trend
  | menurun : Trend
  | stabil : Trend
deriving DecidableEq, Repr

/-- Body of the trend-analysis loop (app.py lines 172-185) for one country
series: requires at least 7 days, compares the mean of the last 7 rows
with the mean of `tail(14).head(7)`, classifies only when the latter is
positive, with thresholds at plus and minus 20 percent. -/
def trendOfCountry (country_data : List Rat) : Option Trend :=
  if 7 ≤ country_data.length then
    let latest_week := mean (tailN 7 country_data)
    let prev_week := mean ((tailN 14 country_data).take 7)
    if 0 < prev_week then
      let change_pct := (latest_week - prev_week) / prev_week * 100
      if 20 < change_pct then some Trend.meningkat
      else if change_pct < -20 then some Trend.menurun
      else some Trend.stabil
    else none
  else none

/-- Daily-count series of one country in the filtered subset, in row order
(app.py line 172). -/
def countrySeries (dff : List Record) (negara : String) : List Rat :=
  (dff.filter fun r => r.negara == negara).map Record.kasus_harian

/-- The trend_analysis list (app.py lines 169-185): one labelled entry per
selected country that passes both guards. -/
def trend_analysis (dff : List Record) (negara_selected : List String) :
    List (String × Trend) :=
  negara_selected.filterMap fun negara =>
    (trendOfCountry (countrySeries dff negara)).map fun t => (negara, t)

/-- C5: the filter stage returns exactly the records whose country is in
the selection and whose date lies in the inclusive interval, hence every
date of the filtered subset is bounded by the interval. -/
theorem dfFiltered_spec (df : List Record) (S : List String) (a b : Int)
    (hab : a ≤ b) :
    (∀ r : Record, r ∈ dfFiltered df S a b ↔
        r ∈ df ∧ r.negara ∈ S ∧ a ≤ r.tanggal ∧ r.tanggal ≤ b) ∧
    (∀ r ∈ dfFiltered df S a b, a ≤ r.tanggal ∧ r.tanggal ≤ b) := by
  constructor
  · intro r
    simp [dfFiltered, List.mem_filter, and_assoc]
  · intro r hr
    have := (List.mem_filter.mp hr).2
    simp only [Bool.and_eq_true, decide_eq_true_eq] at this
    exact ⟨this.1.2, this.2⟩

/-- Witness for C5 at a concrete dataframe, selection and interval. -/
theorem dfFiltered_spec_witness :
    (⟨"A", 0, 1, 1⟩ : Record) ∈ dfFiltered [⟨"A", 0, 1, 1⟩] ["A"] 0 1 :=
  ((dfFiltered_spec [⟨"A", 0, 1, 1⟩] ["A"] 0 1 (by decide)).1
      ⟨"A", 0, 1, 1⟩).mpr ⟨by decide, by decide, by decide, by decide⟩

/-- Concrete scenario data: one country with exactly 7 days of history and
an all-zero daily-count column. -/
def df7zero : List Record :=
  [⟨"A", 0, 0, 0⟩, ⟨"A", 1, 0, 0⟩, ⟨"A", 2, 0, 0⟩, ⟨"A", 3, 0, 0⟩,
   ⟨"A", 4, 0, 0⟩, ⟨"A", 5, 0, 0⟩, ⟨"A", 6, 0, 0⟩]

/-- Concrete scenario data: one country with a flat 14-day all-zero series. -/
def df14zero : List Record :=
  [⟨"A", 0, 0, 0⟩, ⟨"A", 1, 0, 0⟩, ⟨"A", 2, 0, 0⟩, ⟨"A", 3, 0, 0⟩,
   ⟨"A", 4, 0, 0⟩, ⟨"A", 5, 0, 0⟩, ⟨"A", 6, 0, 0⟩, ⟨"A", 7, 0, 0⟩,
   ⟨"A", 8, 0, 0⟩, ⟨"A", 9, 0, 0⟩, ⟨"A", 10, 0, 0⟩, ⟨"A", 11, 0, 0⟩,
   ⟨"A", 12, 0, 0⟩, ⟨"A", 13, 0, 0⟩]

theorem trendOfCountry_short (xs : List Rat) (h : xs.length < 7) :
    trendOfCountry xs = none := by
  simp only [trendOfCountry]
  rw [if_neg (by omega)]

theorem trendOfCountry_nonpos (xs : List Rat)
    (h : mean ((tailN 14 xs).take 7) ≤ 0) :
    trendOfCountry xs = none := by
  simp only [trendOfCountry]
  split_ifs with h1 h2 h3 h4 <;> first | rfl | linarith

theorem mem_trend_analysis_iff (dff : List Record) (sel : List String)
    (negara : String) (t : Trend) :
    (negara, t) ∈ trend_analysis dff sel ↔
      negara ∈ sel ∧ trendOfCountry (countrySeries dff negara) = some t := by
  simp only [trend_analysis, List.mem_filterMap, Option.map_eq_some',
    Prod.mk.injEq]
  constructor
  · rintro ⟨a, ha, tr, htr, rfl, rfl⟩
    exact ⟨ha, htr⟩
  · rintro ⟨ha, htr⟩
    exact ⟨negara, ha, t, htr, rfl, rfl⟩

/-- C2 counterexample: a selected country with exactly 7 days of history in
the filtered window whose daily counts are all zero is NOT included in the
classification output — the prev_week > 0 guard (app.py line 177) silently
drops it, so the claim as stated fails. -/
theorem trend_boundary_counterexample :
    (countrySeries df7zero "A").length = 7 ∧
    trend_analysis df7zero ["A"] = [] := by
  have hs : countrySeries df7zero "A" = List.replicate 7 0 := by decide
  have hw : (tailN 14 (List.replicate 7 (0 : Rat))).take 7
      = List.replicate 7 0 := by decide
  have hnone : trendOfCountry (countrySeries df7zero "A") = none := by
    rw [hs]
    refine trendOfCountry_nonpos _ ?_
    rw [hw]
    norm_num [mean, List.sum_replicate]
  refine ⟨by rw [hs]; rfl, ?_⟩
  simp [trend_analysis, hnone]

/-- C2 amended: a selected country with exactly 7 days of history is
included by the classifier (as "stabil", since both 7-day windows coincide)
provided its mean daily count over those 7 days is positive; with a
non-positive mean it is dropped by the prev_week > 0 guard. A country with
fewer than 7 days is always excluded, never defaulted to "stabil". -/
theorem trend_boundary_amended (dff : List Record) (sel : List String)
    (negara : String) (hmem : negara ∈ sel) :
    ((countrySeries dff negara).length = 7 →
        0 < mean (countrySeries dff negara) →
        (negara, Trend.stabil) ∈ trend_analysis dff sel) ∧
    ((countrySeries dff negara).length < 7 →
        ∀ t : Trend, (negara, t) ∉ trend_analysis dff sel) := by
  constructor
  · intro h7 hpos
    have h1 : tailN 7 (countrySeries dff negara) = countrySeries dff negara := by
      simp [tailN, h7]
    have h2 : (tailN 14 (countrySeries dff negara)).take 7
        = countrySeries dff negara := by
      simp [tailN, h7]
    refine (mem_trend_analysis_iff dff sel negara Trend.stabil).mpr ⟨hmem, ?_⟩
    simp only [trendOfCountry, h1, h2, sub_self, zero_div, zero_mul]
    rw [if_pos (by omega), if_pos hpos, if_neg (by norm_num),
      if_neg (by norm_num)]
  · intro hlt t hmemT
    have h := (mem_trend_analysis_iff dff sel negara t).mp hmemT
    rw [trendOfCountry_short _ hlt] at h
    exact Option.noConfusion h.2

/-- Witness for the amended C2 at a concrete positive 7-day series and a
concrete 3-day series. -/
theorem trend_boundary_amended_witness :
    ("A", Trend.stabil) ∈
      trend_analysis
        [⟨"A", 0, 2, 2⟩, ⟨"A", 1, 2, 4⟩, ⟨"A", 2, 2, 6⟩, ⟨"A", 3, 2, 8⟩,
         ⟨"A", 4, 2, 10⟩, ⟨"A", 5, 2, 12⟩, ⟨"A", 6, 2, 14⟩] ["A"] ∧
    ("B", Trend.stabil) ∉
      trend_analysis [⟨"B", 0, 2, 2⟩, ⟨"B", 1, 2, 4⟩, ⟨"B", 2, 2, 6⟩] ["B"] :=
  ⟨(trend_boundary_amended _ ["A"] "A" (by decide)).1 (by decide)
      (by norm_num [countrySeries, mean]),
   (trend_boundary_amended _ ["B"] "B" (by decide)).2 (by decide) Trend.stabil⟩

/-- C3 counterexample: a selected country whose filtered window holds a
flat 14-day series (all days equal, here zero) is NOT classified "stabil"
as the claim requires — the prev_week > 0 guard drops it and the
classification output is empty. -/
theorem trend_classifier_counterexample :
    (countrySeries df14zero "A").length = 14 ∧
    (∀ x ∈ countrySeries df14zero "A", x = 0) ∧
    trend_analysis df14zero ["A"] = [] := by
  have hs : countrySeries df14zero "A" = List.replicate 14 0 := by decide
  have hw : (tailN 14 (List.replicate 14 (0 : Rat))).take 7
      = List.replicate 7 0 := by decide
  have hnone : trendOfCountry (countrySeries df14zero "A") = none := by
    rw [hs]
    refine trendOfCountry_nonpos _ ?_
    rw [hw]
    norm_num [mean, List.sum_replicate]
  refine ⟨by rw [hs]; rfl, by decide, ?_⟩
  simp [trend_analysis, hnone]

/-- C3 amended: for every selected country with at least 7 days of history
whose preceding-window mean is positive, the classifier labels the country
by the relative change of the recent 7-day mean against the preceding
window mean — "meningkat" iff the change exceeds 20 percent, "menurun" iff
it is below minus 20 percent, "stabil" otherwise. The preceding window is
`tail(14).head(7)` of the series, which equals days 8-14 back exactly when
the series has at least 14 days; with a zero preceding mean (e.g. a flat
all-zero series) the country is omitted rather than labelled "stabil". -/
theorem trend_classifier_amended (xs : List Rat) (change : Rat)
    (h7 : 7 ≤ xs.length)
    (hprev : 0 < mean ((tailN 14 xs).take 7))
    (hchange : change =
      (mean (tailN 7 xs) - mean ((tailN 14 xs).take 7))
        / mean ((tailN 14 xs).take 7)) :
    (trendOfCountry xs = some Trend.meningkat ↔ 1 / 5 < change) ∧
    (trendOfCountry xs = some Trend.menurun ↔ change < -(1 / 5)) ∧
    (trendOfCountry xs = some Trend.stabil ↔
        -(1 / 5) ≤ change ∧ change ≤ 1 / 5) := by
  have hcp : (mean (tailN 7 xs) - mean ((tailN 14 xs).take 7))
      / mean ((tailN 14 xs).take 7) * 100 = change * 100 := by rw [hchange]
  simp only [trendOfCountry, if_pos h7, if_pos hprev, hcp]
  split_ifs with h1 h2
  · refine ⟨by simp; linarith, by simp; linarith, ?_⟩
    simp only [reduceCtorEq, Option.some.injEq, false_iff, not_and, not_le]
    intro hc
    linarith
  · refine ⟨by simp; linarith, by simp; linarith, ?_⟩
    simp only [reduceCtorEq, Option.some.injEq, false_iff, not_and, not_le]
    intro hc
    linarith
  · refine ⟨by simp; linarith, by simp; linarith, ?_⟩
    simp only [Option.some.injEq, true_iff]
    constructor <;> linarith

/-- Witness for the amended C3: a 14-day series whose last 7 days are
uniformly double the prior 7 is classified "meningkat", and a positive
flat 14-day series is classified "stabil". -/
theorem trend_classifier_amended_witness :
    trendOfCountry (List.replicate 7 1 ++ List.replicate 7 2)
      = some Trend.meningkat ∧
    trendOfCountry (List.replicate 14 5) = some Trend.stabil := by
  have hwp : (tailN 14 (List.replicate 7 (1 : Rat) ++ List.replicate 7 2)).take 7
      = List.replicate 7 1 := by decide
  have hwl : tailN 7 (List.replicate 7 (1 : Rat) ++ List.replicate 7 2)
      = List.replicate 7 2 := by decide
  have hfp : (tailN 14 (List.replicate 14 (5 : Rat))).take 7
      = List.replicate 7 5 := by decide
  have hfl : tailN 7 (List.replicate 14 (5 : Rat)) = List.replicate 7 5 := by
    decide
  constructor
  · exact (trend_classifier_amended _ 1 (by decide)
      (by rw [hwp]; norm_num [mean, List.sum_replicate])
      (by rw [hwp, hwl]; norm_num [mean, List.sum_replicate])).1.mpr
      (by norm_num)
  · exact (trend_classifier_amended _ 0 (by decide)
      (by rw [hfp]; norm_num [mean, List.sum_replicate])
      (by rw [hfp, hfl]; norm_num [mean, List.sum_replicate])).2.2.mpr
      (by norm_num)

/-- C9: a selected country with at least 7 days of history whose preceding
window mean (mean of tail(14).head(7)) is not positive is silently omitted
from the classification output, and every entry of the output comes from a
selected country whose preceding-window mean is positive. -/
theorem trend_prev_week_guard (dff : List Record) (sel : List String) :
    (∀ negara ∈ sel, 7 ≤ (countrySeries dff negara).length →
        mean ((tailN 14 (countrySeries dff negara)).take 7) ≤ 0 →
        ∀ t : Trend, (negara, t) ∉ trend_analysis dff sel) ∧
    (∀ p ∈ trend_analysis dff sel,
        p.1 ∈ sel ∧
        0 < mean ((tailN 14 (countrySeries dff p.1)).take 7)) := by
  constructor
  · intro negara _ _ hnonpos t hmemT
    have h := (mem_trend_analysis_iff dff sel negara t).mp hmemT
    rw [trendOfCountry_nonpos _ hnonpos] at h
    exact Option.noConfusion h.2
  · rintro ⟨negara, t⟩ hmemT
    have h := (mem_trend_analysis_iff dff sel negara t).mp hmemT
    refine ⟨h.1, ?_⟩
    by_contra hc
    rw [trendOfCountry_nonpos _ (by linarith)] at h
    exact Option.noConfusion h.2

/-- Witness for C9: the all-zero 7-day country is not in the output. -/
theorem trend_prev_week_guard_witness :
    ("A", Trend.stabil) ∉ trend_analysis df7zero ["A"] :=
  (trend_prev_week_guard df7zero ["A"]).1 "A" (by decide) (by decide)
    (by
      have hs : countrySeries df7zero "A" = List.replicate 7 0 := by decide
      have hw : (tailN 14 (List.replicate 7 (0 : Rat))).take 7
          = List.replicate 7 0 := by decide
      rw [hs, hw]
      norm_num [mean, List.sum_replicate])
    Trend.stabil

/-- pandas Series.max(): NaN (none) on an empty column. -/
def seriesMax (xs : List Rat) : Option Rat := xs.max?

/-- pandas Series.mean(): NaN (none) on an empty column. -/
def seriesMean (xs : List Rat) : Option Rat :=
  if xs.isEmpty then none else some (mean xs)

/-- Python int() applied to a float: truncation toward zero. -/
def intOf (q : Rat) : Int := q.num.tdiv (q.den : Int)

/-- total_cases (app.py line 85): int of the maximal cumulative count;
int(NaN) raises, modelled by none. -/
def total_cases (dff : List Record) : Option Int :=
  (seriesMax (dff.map Record.kasus_kumulatif)).map intOf

/-- avg_daily (app.py line 86): int of the mean daily count; int(NaN)
raises, modelled by none. -/
def avg_daily (dff : List Record) : Option Int :=
  (seriesMean (dff.map Record.kasus_harian)).map intOf

/-- total_countries (app.py line 87): number of distinct countries. -/
def total_countries (dff : List Record) : Nat :=
  (dff.map Record.negara).dedup.length

/-- KPI row (app.py lines 83-93): evaluated on the filtered subset with no
emptiness guard. -/
def kpiPanel (dff : List Record) : PanelOut (Int × Int × Nat) :=
  match total_cases dff, avg_daily dff with
  | some t, some a => PanelOut.ok (t, a, total_countries dff)
  | _, _ => PanelOut.raised

/-- pandas idxmax row selection: the first row attaining the maximal
kasus_harian value. -/
def idxmaxDaily : List Record → Option Record
  | [] => none
  | r :: rs =>
    match idxmaxDaily rs with
    | none => some r
    | some m => if r.kasus_harian < m.kasus_harian then some m else some r

/-- peak_global (app.py line 162): the row of the filtered subset attaining
the overall maximal daily count. -/
def peak_global (dff : List Record) : Option Record := idxmaxDaily dff

/-- Trend insight panel (app.py lines 161-200): placeholder on an empty
subset, otherwise the headline peak row plus the trend analysis. -/
def trendInsightPanel (dff : List Record) (sel : List String) :
    PanelOut (Record × List (String × Trend)) :=
  if dff.isEmpty then PanelOut.placeholder
  else
    match peak_global dff with
    | some p => PanelOut.ok (p, trend_analysis dff sel)
    | none => PanelOut.raised

/-- df_peak (app.py lines 210-214): per-country idxmax rows (groupby
enumerates countries in ascending order), sorted by kasus_harian
descending. -/
def df_peak (dff : List Record) : List Record :=
  (((dff.map Record.negara).dedup.insertionSort (· ≤ ·)).filterMap
      fun negara => idxmaxDaily (dff.filter fun r => r.negara == negara)
    ).insertionSort fun a b => b.kasus_harian ≤ a.kasus_harian

/-- Peak-record panel (app.py lines 209-253): placeholder on empty. -/
def peakPanel (dff : List Record) : PanelOut (List Record) :=
  if dff.isEmpty then PanelOut.placeholder else PanelOut.ok (df_peak dff)

/-- Scenario dataset of C1: 3 countries with 30 days each (days 0..29). -/
def df3x30 : List Record :=
  ["A", "B", "C"].flatMap fun negara =>
    (List.range 30).map fun i => ⟨negara, (i : Int), 1, 1⟩

/-- C1 (code bug at app.py lines 83-93): on the 3-countries-by-30-days
scenario with one country selected and a date window holding none of its
rows, the filtered subset is empty; the guarded panels render their
placeholder, but the unguarded KPI row evaluates int(max) and int(mean) of
an empty column, which raises instead of showing a placeholder. -/
theorem kpi_raises_on_empty_filter :
    dfFiltered df3x30 ["C"] 40 50 = [] ∧
    kpiPanel (dfFiltered df3x30 ["C"] 40 50) = PanelOut.raised ∧
    trendInsightPanel (dfFiltered df3x30 ["C"] 40 50) ["C"]
      = PanelOut.placeholder ∧
    peakPanel (dfFiltered df3x30 ["C"] 40 50) = PanelOut.placeholder := by
  decide

theorem idxmaxDaily_eq_none (l : List Record) (h : idxmaxDaily l = none) :
    l = [] := by
  cases l with
  | nil => rfl
  | cons a t =>
    cases hrec : idxmaxDaily t with
    | none =>
      simp only [idxmaxDaily, hrec] at h
      exact Option.noConfusion h
    | some m =>
      simp only [idxmaxDaily, hrec] at h
      split_ifs at h

theorem idxmaxDaily_mem : ∀ (l : List Record) (r : Record),
    idxmaxDaily l = some r → r ∈ l := by
  intro l
  induction l with
  | nil => intro r h; cases h
  | cons a t ih =>
    intro r h
    cases hrec : idxmaxDaily t with
    | none =>
      simp only [idxmaxDaily, hrec] at h
      obtain rfl := Option.some.inj h
      exact List.mem_cons_self a t
    | some m =>
      simp only [idxmaxDaily, hrec] at h
      split_ifs at h with hlt
      · obtain rfl := Option.some.inj h
        exact List.mem_cons_of_mem a (ih _ hrec)
      · obtain rfl := Option.some.inj h
        exact List.mem_cons_self a t

theorem idxmaxDaily_le : ∀ (l : List Record) (r : Record),
    idxmaxDaily l = some r → ∀ x ∈ l, x.kasus_harian ≤ r.kasus_harian := by
  intro l
  induction l with
  | nil => intro r h; cases h
  | cons a t ih =>
    intro r h x hx
    cases hrec : idxmaxDaily t with
    | none =>
      simp only [idxmaxDaily, hrec] at h
      obtain rfl := Option.some.inj h
      rcases List.mem_cons.mp hx with rfl | hxt
      · exact le_refl _
      · rw [idxmaxDaily_eq_none t hrec] at hxt
        cases hxt
    | some m =>
      simp only [idxmaxDaily, hrec] at h
      split_ifs at h with hlt
      · obtain rfl := Option.some.inj h
        rcases List.mem_cons.mp hx with rfl | hxt
        · exact le_of_lt hlt
        · exact ih _ hrec x hxt
      · obtain rfl := Option.some.inj h
        rcases List.mem_cons.mp hx with rfl | hxt
        · exact le_refl _
        · exact le_trans (ih _ hrec x hxt) (le_of_not_lt hlt)

theorem idxmaxDaily_unique : ∀ (l : List Record) (r : Record), r ∈ l →
    (∀ x ∈ l, x ≠ r → x.kasus_harian < r.kasus_harian) →
    idxmaxDaily l = some r := by
  intro l
  induction l with
  | nil => intro r h; cases h
  | cons a t ih =>
    intro r hmem huniq
    by_cases hra : r = a
    · subst hra
      cases hrec : idxmaxDaily t with
      | none => simp only [idxmaxDaily, hrec]
      | some m =>
        simp only [idxmaxDaily, hrec]
        rw [if_neg ?_]
        by_cases hmr : m = r
        · subst hmr; exact lt_irrefl _
        · have hlt := huniq m
            (List.mem_cons_of_mem r (idxmaxDaily_mem t m hrec)) hmr
          intro hcon
          exact absurd hcon (not_lt_of_gt hlt)
    · have hrt : r ∈ t := by
        rcases List.mem_cons.mp hmem with h | h
        · exact absurd h hra
        · exact h
      have hrec : idxmaxDaily t = some r :=
        ih r hrt fun x hx hxr => huniq x (List.mem_cons_of_mem a hx) hxr
      simp only [idxmaxDaily, hrec]
      rw [if_pos (huniq a (List.mem_cons_self a t) fun h => hra h.symm)]

/-- C7: peak finding. Every row of df_peak is a row of the filtered subset
attaining the maximal daily count of its own country, and when the input
has a unique overall maximum row, both the headline peak_global and that
per-country entry of that row report exactly the injected extreme (country, date
and value, being the whole row). -/
theorem peak_finder_spec (dff : List Record) (r : Record)
    (hmem : r ∈ dff)
    (huniq : ∀ x ∈ dff, x ≠ r → x.kasus_harian < r.kasus_harian) :
    peak_global dff = some r ∧
    r ∈ df_peak dff ∧
    ∀ p ∈ df_peak dff, p ∈ dff ∧
      ∀ x ∈ dff, x.negara = p.negara → x.kasus_harian ≤ p.kasus_harian := by
  refine ⟨idxmaxDaily_unique dff r hmem huniq, ?_, ?_⟩
  · rw [df_peak, (List.perm_insertionSort _ _).mem_iff, List.mem_filterMap]
    refine ⟨r.negara, ?_, ?_⟩
    · rw [(List.perm_insertionSort _ _).mem_iff, List.mem_dedup,
        List.mem_map]
      exact ⟨r, hmem, rfl⟩
    · refine idxmaxDaily_unique _ r ?_ ?_
      · exact List.mem_filter.mpr ⟨hmem, by simp⟩
      · intro x hx hxr
        exact huniq x (List.mem_filter.mp hx).1 hxr
  · intro p hp
    rw [df_peak, (List.perm_insertionSort _ _).mem_iff,
      List.mem_filterMap] at hp
    obtain ⟨negara, _, hidx⟩ := hp
    have hpmem := idxmaxDaily_mem _ p hidx
    have hpneg : p.negara = negara := by
      have := (List.mem_filter.mp hpmem).2
      simpa using this
    refine ⟨(List.mem_filter.mp hpmem).1, ?_⟩
    intro x hx hxneg
    refine idxmaxDaily_le _ p hidx x (List.mem_filter.mpr ⟨hx, ?_⟩)
    simp [hxneg, hpneg]

/-- Witness for C7: a dataset with a unique injected maximum row; the
headline reports exactly that row. -/
theorem peak_finder_spec_witness :
    peak_global
      [⟨"A", 0, 5, 5⟩, ⟨"A", 1, 9, 14⟩, ⟨"B", 0, 3, 3⟩, ⟨"B", 1, 4, 7⟩]
      = some ⟨"A", 1, 9, 14⟩ :=
  (peak_finder_spec
    [⟨"A", 0, 5, 5⟩, ⟨"A", 1, 9, 14⟩, ⟨"B", 0, 3, 3⟩, ⟨"B", 1, 4, 7⟩]
    ⟨"A", 1, 9, 14⟩ (by decide) (by decide)).1

/-- A row of the global contribution table: country, cumulative count and
percentage of the global total. -/
structure PieRow where
  negara : String
  kasus_kumulatif : Rat
  persentase : Rat
deriving DecidableEq, Repr

/-- total_global_cases (app.py line 273): sum of the per-country cumulative
counts of the snapshot table. -/
def total_global_cases (rows : List (String × Rat)) : Rat :=
  (rows.map Prod.snd).sum

/-- df_global_pie with its persentase column (app.py lines 266-276); the
input rows are the per-country cumulative counts of the latest-date
snapshot. -/
def withPersentase (rows : List (String × Rat)) : List PieRow :=
  rows.map fun p => ⟨p.1, p.2, p.2 / total_global_cases rows * 100⟩

/-- df_top (app.py lines 279-282): the 10 rows with the highest cumulative
count. -/
def df_top (rows : List (String × Rat)) : List PieRow :=
  ((withPersentase rows).insertionSort
      fun a b => b.kasus_kumulatif ≤ a.kasus_kumulatif).take 10

/-- df_others (app.py lines 284-292): the remainder row, computed by
subtraction from the total, not by re-aggregating the excluded rows. -/
def df_others (rows : List (String × Rat)) : PieRow :=
  ⟨"Lainnya",
    total_global_cases rows - ((df_top rows).map PieRow.kasus_kumulatif).sum,
    100 - ((df_top rows).map PieRow.persentase).sum⟩

/-- df_pie_final (app.py line 294): top-10 rows plus the remainder row. -/
def df_pie_final (rows : List (String × Rat)) : List PieRow :=
  df_top rows ++ [df_others rows]

theorem persentase_of_mem_withPersentase (rows : List (String × Rat))
    (r : PieRow) (h : r ∈ withPersentase rows) :
    r.persentase = r.kasus_kumulatif / total_global_cases rows * 100 := by
  rw [withPersentase, List.mem_map] at h
  obtain ⟨p, _, rfl⟩ := h
  rfl

theorem sum_persentase_eq (T : Rat) (l : List PieRow)
    (h : ∀ r ∈ l, r.persentase = r.kasus_kumulatif / T * 100) :
    (l.map PieRow.persentase).sum
      = (l.map PieRow.kasus_kumulatif).sum / T * 100 := by
  induction l with
  | nil => simp
  | cons a t ih =>
    simp only [List.map_cons, List.sum_cons]
    rw [h a (List.mem_cons_self a t),
      ih fun r hr => h r (List.mem_cons_of_mem a hr), add_div, add_mul]

/-- C4: the "Lainnya" remainder row of every breakdown with positive total
is computed by subtraction — its count is the grand total minus the sum of
the top-10 counts and its percentage is 100 minus the sum of the top-10
percentages — that percentage coincides with re-deriving it from the
remainder count, and the percentages of the 11 categories sum to exactly
100 in exact arithmetic. -/
theorem others_by_subtraction (rows : List (String × Rat))
    (htot : 0 < total_global_cases rows) :
    (df_others rows).kasus_kumulatif
        = total_global_cases rows
            - ((df_top rows).map PieRow.kasus_kumulatif).sum ∧
    (df_others rows).persentase
        = 100 - ((df_top rows).map PieRow.persentase).sum ∧
    (df_others rows).persentase
        = (df_others rows).kasus_kumulatif / total_global_cases rows * 100 ∧
    ((df_pie_final rows).map PieRow.persentase).sum = 100 := by
  have hmem : ∀ r ∈ df_top rows,
      r.persentase = r.kasus_kumulatif / total_global_cases rows * 100 := by
    intro r hr
    refine persentase_of_mem_withPersentase rows r ?_
    exact (List.perm_insertionSort _ _).mem_iff.mp
      (List.take_subset 10 _ hr)
  have hsum := sum_persentase_eq (total_global_cases rows) (df_top rows) hmem
  have hT : total_global_cases rows ≠ 0 := ne_of_gt htot
  refine ⟨rfl, rfl, ?_, ?_⟩
  · simp only [df_others]
    rw [hsum]
    field_simp
    ring
  · simp only [df_pie_final, List.map_append, List.sum_append,
      List.map_cons, List.sum_cons, List.map_nil, List.sum_nil, df_others]
    ring

/-- Witness for C4 at a concrete two-country snapshot. -/
theorem others_by_subtraction_witness :
    ((df_pie_final [("A", 60), ("B", 40)]).map PieRow.persentase).sum
      = 100 :=
  (others_by_subtraction [("A", 60), ("B", 40)]
    (by norm_num [total_global_cases])).2.2.2

/-- sorted_pct (app.py line 325): percentage shares sorted ascending. -/
def sorted_pct (l : List Rat) : List Rat := l.insertionSort (· ≤ ·)

/-- gini_numerator (app.py line 328): sum of (i+1) times the i-th sorted
value, i running over the 0-based positions. -/
def gini_numerator (l : List Rat) : Rat :=
  ((List.range (sorted_pct l).length).map
    fun i : Nat => ((i : Rat) + 1) * (sorted_pct l).getD i 0).sum

/-- gini_coefficient (app.py lines 324-329). -/
def gini_coefficient (l : List Rat) : Rat :=
  (2 * gini_numerator l)
      / (((sorted_pct l).length : Rat) * (sorted_pct l).sum)
    - (((sorted_pct l).length : Rat) + 1) / ((sorted_pct l).length : Rat)

/-- Formula as the spec words it (section 4.5): for the N values sorted
ascending with 1-indexed ranks, 2 times the rank-weighted sum over N times
the plain sum, minus (N+1)/N. -/
def giniSpecFormula (l : List Rat) : Rat :=
  (2 * ∑ i ∈ Finset.range (l.insertionSort (· ≤ ·)).length,
        (((i : Nat) : Rat) + 1) * (l.insertionSort (· ≤ ·)).getD i 0)
      / (((l.insertionSort (· ≤ ·)).length : Rat)
          * (l.insertionSort (· ≤ ·)).sum)
    - (((l.insertionSort (· ≤ ·)).length : Rat) + 1)
        / ((l.insertionSort (· ≤ ·)).length : Rat)

theorem list_range_map_sum (n : Nat) (f : Nat → Rat) :
    ((List.range n).map f).sum = ∑ i ∈ Finset.range n, f i := by
  induction n with
  | zero => simp
  | succ k ih =>
    rw [List.range_succ, List.map_append, List.sum_append,
      Finset.sum_range_succ, ih]
    simp

/-- C8: the inequality coefficient of the insight block equals the spec
formula (ranks 1-indexed over the ascending-sorted values), and the slice
it is applied to in the dashboard — df_top — never exceeds 10 rows and
never exceeds the country population of the snapshot. -/
theorem gini_formula_spec :
    (∀ l : List Rat, gini_coefficient l = giniSpecFormula l) ∧
    ∀ rows : List (String × Rat),
      (df_top rows).length ≤ 10 ∧ (df_top rows).length ≤ rows.length := by
  constructor
  · intro l
    rw [gini_coefficient, giniSpecFormula, gini_numerator, sorted_pct,
      list_range_map_sum]
  · intro rows
    have h1 : (df_top rows).length = min 10 rows.length := by
      simp [df_top, List.length_take, List.length_insertionSort,
        withPersentase]
    constructor <;> rw [h1] <;> omega

/-- pandas .std() underlying variance: sample variance with ddof 1; the
volatility loop (app.py line 567) only reaches it on series of length at
least 2. -/
def sampleVar (xs : List Rat) : Rat :=
  (xs.map fun x => (x - mean xs) ^ 2).sum / ((xs.length : Rat) - 1)

/-- pandas .std(): square root of the sample variance, as a real number. -/
noncomputable def std_dev (xs : List Rat) : ℝ :=
  Real.sqrt ((sampleVar xs : Rat) : ℝ)

/-- cv (app.py line 571): std over mean times 100 when the mean is
positive, else 0. -/
noncomputable def cv (xs : List Rat) : ℝ :=
  if 0 < mean xs then std_dev xs / ((mean xs : Rat) : ℝ) * 100 else 0

/-- C6: the coefficient of variation equals std divided by mean times 100
when the mean is positive and is exactly 0 (not NaN, not an error) when
the mean is 0 — the division is never evaluated with a zero divisor. -/
theorem cv_spec (xs : List Rat) :
    (mean xs = 0 → cv xs = 0) ∧
    (0 < mean xs → cv xs = std_dev xs / ((mean xs : Rat) : ℝ) * 100) := by
  constructor
  · intro h
    rw [cv, if_neg]
    rw [h]
    exact lt_irrefl 0
  · intro h
    rw [cv, if_pos h]

/-- Witness for C6 at an all-zero series and at a positive-mean series. -/
theorem cv_spec_witness :
    cv [0, 0] = 0 ∧
    cv [2, 4] = std_dev [2, 4] / ((mean [2, 4] : Rat) : ℝ) * 100 :=
  ⟨(cv_spec [0, 0]).1 (by norm_num [mean]),
   (cv_spec [2, 4]).2 (by norm_num [mean])⟩

/-- top10 (app.py lines 351-358): per-country maximal cumulative count
(groupby enumerates countries in ascending order), sorted descending by
count, first 10 rows. -/
def top10 (df : List Record) : List (String × Rat) :=
  ((((df.map Record.negara).dedup.insertionSort (· ≤ ·)).map
      fun negara =>
        (negara,
          ((df.filter fun r => r.negara == negara).map
            Record.kasus_kumulatif).max?.getD 0)).insertionSort
    fun a b => b.2 ≤ a.2).take 10

/-- Number of distinct countries in the full dataset. -/
def numCountries (df : List Record) : Nat :=
  (df.map Record.negara).dedup.length

/-- ratio_1_to_10 (app.py lines 379-381): the insight block is guarded
only by top10 being non-empty; the iloc position-9 access raises
IndexError when the ranking has fewer than 10 rows. -/
def ratio_1_to_10 (df : List Record) : PanelOut Rat :=
  if (top10 df).isEmpty then PanelOut.placeholder
  else
    match (top10 df).get? 0, (top10 df).get? 9 with
    | some a, some b => PanelOut.ok (a.2 / b.2)
    | _, _ => PanelOut.raised

/-- C10: the rank-1 to rank-10 ratio is evaluated exactly when the dataset
has at least 10 distinct countries; with 1 to 9 countries the insight
block is still entered (top10 is non-empty) and the positional access at
index 9 is out of bounds — it raises instead of degrading gracefully. -/
theorem ratio_1_to_10_spec (df : List Record) :
    (10 ≤ numCountries df →
      ∃ a b, (top10 df).get? 0 = some a ∧ (top10 df).get? 9 = some b ∧
        ratio_1_to_10 df = PanelOut.ok (a.2 / b.2)) ∧
    (0 < numCountries df → numCountries df < 10 →
      ratio_1_to_10 df = PanelOut.raised) := by
  have hlen : (top10 df).length = min 10 (numCountries df) := by
    simp [top10, numCountries, List.length_take, List.length_insertionSort,
      List.length_map]
  constructor
  · intro h10
    have h0 : 0 < (top10 df).length := by omega
    have h9 : 9 < (top10 df).length := by omega
    have hne : ¬(top10 df).isEmpty = true := by
      simp only [List.isEmpty_iff]
      exact List.length_pos.mp h0
    refine ⟨_, _, List.get?_eq_get h0, List.get?_eq_get h9, ?_⟩
    rw [ratio_1_to_10, if_neg hne, List.get?_eq_get h0, List.get?_eq_get h9]
  · intro hpos hlt
    have h0 : 0 < (top10 df).length := by omega
    have h9 : (top10 df).get? 9 = none := by
      rw [List.get?_eq_none]
      omega
    have hne : ¬(top10 df).isEmpty = true := by
      simp only [List.isEmpty_iff]
      exact List.length_pos.mp h0
    rw [ratio_1_to_10, if_neg hne, List.get?_eq_get h0, h9]

/-- Witness for C10: a two-country dataset enters the block and the index
access at position 9 is out of bounds. -/
theorem ratio_1_to_10_spec_witness :
    ratio_1_to_10 [⟨"A", 0, 1, 5⟩, ⟨"B", 0, 1, 3⟩] = PanelOut.raised :=
  (ratio_1_to_10_spec [⟨"A", 0, 1, 5⟩, ⟨"B", 0, 1, 3⟩]).2
    (by decide) (by decide)
